import Mathlib

/-!
Shallow embedding of the robotrave servo control bridge: the four scripts
client/scripts/servo_reciever.py, client/scripts/servo_receiver_ws.py,
client/scripts/tonypi_servo_server.py and client/scripts/servo_client.py.

Conventions used throughout this file:
* numbers that Python holds as floats are modelled as exact rationals;
* Python round() on a number (round half to even) is `roundHalfEven`;
* Python int() applied to a number (truncation toward zero) is `truncQ`;
* Python float()/int() applied to an arbitrary JSON value is `pyFloat` /
  `pyInt`; their behaviour on strings (Python parses numeric strings) is a
  parameter `PyConv`, since the scripts never rely on it;
* the vendor servo driver is abstract: a call to it is recorded as a `HwCall`,
  and a parameter `fault : HwCall → Bool` tells which driver calls raise.
-/

/-- Python max(lo, min(hi, v)): the clamp helper each script defines. -/
def clampQ (v lo hi : ℚ) : ℚ := max lo (min hi v)

/-- Python round() on an exact rational: round half to even. -/
def roundHalfEven (x : ℚ) : ℤ :=
  if x - ⌊x⌋ < 1/2 then ⌊x⌋
  else if 1/2 < x - ⌊x⌋ then ⌊x⌋ + 1
  else if ⌊x⌋ % 2 = 0 then ⌊x⌋ else ⌊x⌋ + 1

/-- Python int() on a number: truncation toward zero. -/
def truncQ (x : ℚ) : ℤ := if 0 ≤ x then ⌊x⌋ else ⌈x⌉

theorem floor_le_roundHalfEven (x : ℚ) : ⌊x⌋ ≤ roundHalfEven x := by
  unfold roundHalfEven
  split_ifs <;> omega

theorem roundHalfEven_le_ceil (x : ℚ) : roundHalfEven x ≤ ⌈x⌉ := by
  unfold roundHalfEven
  have hfc : ⌊x⌋ ≤ ⌈x⌉ := Int.floor_le_ceil x
  have hfrac : (1:ℚ)/2 ≤ x - ⌊x⌋ → ⌊x⌋ + 1 ≤ ⌈x⌉ := by
    intro h
    have hlt : (⌊x⌋ : ℚ) < x := by linarith
    have := Int.lt_ceil.mpr hlt
    omega
  split_ifs with h1 h2 h3
  · exact hfc
  · exact hfrac (le_of_lt h2)
  · exact hfc
  · exact hfrac (le_of_not_lt h1)

theorem roundHalfEven_mono {x y : ℚ} (h : x ≤ y) :
    roundHalfEven x ≤ roundHalfEven y := by
  rcases le_or_lt (⌊x⌋ + 1) ⌊y⌋ with hf | hf
  · calc roundHalfEven x ≤ ⌈x⌉ := roundHalfEven_le_ceil x
      _ ≤ ⌊x⌋ + 1 := Int.ceil_le_floor_add_one x
      _ ≤ ⌊y⌋ := hf
      _ ≤ roundHalfEven y := floor_le_roundHalfEven y
  · have hx : ⌊x⌋ ≤ ⌊y⌋ := Int.floor_le_floor h
    have hxy : ⌊x⌋ = ⌊y⌋ := by omega
    unfold roundHalfEven
    rw [← hxy]
    have hsub : x - ⌊x⌋ ≤ y - ⌊x⌋ := by linarith
    split_ifs <;> try omega
    all_goals linarith

theorem roundHalfEven_intCast (n : ℤ) : roundHalfEven (n : ℚ) = n := by
  unfold roundHalfEven
  rw [Int.floor_intCast]
  have h : (n : ℚ) - n < 1/2 := by norm_num
  rw [if_pos h]

theorem truncQ_mono {x y : ℚ} (h : x ≤ y) : truncQ x ≤ truncQ y := by
  unfold truncQ
  split_ifs with h1 h2 h3
  · exact Int.floor_le_floor h
  · linarith
  · calc ⌈x⌉ ≤ 0 := Int.ceil_le.mpr (by push_cast; linarith)
      _ ≤ ⌊y⌋ := Int.le_floor.mpr (by push_cast; linarith)
  · exact Int.ceil_le_ceil h

theorem truncQ_le {x : ℚ} {n : ℤ} (h : x ≤ (n : ℚ)) : truncQ x ≤ n := by
  unfold truncQ
  split_ifs with h1
  · have := Int.floor_le_floor h
    rwa [Int.floor_intCast] at this
  · exact Int.ceil_le.mpr h

theorem truncQ_ge {x : ℚ} {n : ℤ} (h : (n : ℚ) ≤ x) : n ≤ truncQ x := by
  unfold truncQ
  split_ifs with h1
  · exact Int.le_floor.mpr h
  · calc n = ⌈(n : ℚ)⌉ := (Int.ceil_intCast n).symm
      _ ≤ ⌈x⌉ := Int.ceil_le_ceil h

theorem truncQ_intCast (n : ℤ) : truncQ (n : ℚ) = n := by
  unfold truncQ
  split_ifs with h1
  · exact Int.floor_intCast n
  · exact Int.ceil_intCast n

theorem clampQ_mono {v w : ℚ} (lo hi : ℚ) (h : v ≤ w) :
    clampQ v lo hi ≤ clampQ w lo hi := by
  unfold clampQ
  exact max_le_max (le_refl lo) (min_le_min (le_refl hi) h)

theorem clampQ_lower (v lo hi : ℚ) : lo ≤ clampQ v lo hi := le_max_left lo _

theorem clampQ_upper {lo hi : ℚ} (v : ℚ) (h : lo ≤ hi) : clampQ v lo hi ≤ hi :=
  max_le h (min_le_left hi v)

theorem clampQ_of_le {v lo hi : ℚ} (hlohi : lo ≤ hi) (h : v ≤ lo) :
    clampQ v lo hi = lo := by
  unfold clampQ
  rw [min_eq_right (h.trans hlohi), max_eq_left h]

theorem clampQ_of_ge {v lo hi : ℚ} (hlohi : lo ≤ hi) (h : hi ≤ v) :
    clampQ v lo hi = hi := by
  unfold clampQ
  rw [min_eq_left h, max_eq_right hlohi]

theorem clampQ_eq_self {v lo hi : ℚ} (h1 : lo ≤ v) (h2 : v ≤ hi) :
    clampQ v lo hi = v := by
  unfold clampQ
  rw [min_eq_right h2, max_eq_right h1]

/-- JSON values as produced by Python json.loads. Object fields keep wire
order, matching Python dict insertion order. -/
inductive JVal where
  | jnum (q : ℚ)
  | jstr (s : String)
  | jbool (b : Bool)
  | jnull
  | jarr (elems : List JVal)
  | jobj (fields : List (String × JVal))

/-- Python dict .get(k) on a parsed JSON value: none both when the key is
absent and when the value is not a dict (in the scripts the non-dict case
either raises before any hardware call or is guarded by isinstance; where
the distinction is observable the callers below match on jobj first). -/
def JVal.get : JVal → String → Option JVal
  | .jobj fs, k => (fs.find? (fun p => p.1 == k)).map (fun p => p.2)
  | _, _ => none

/-- Python (value == "literal") for a JSON value against a string literal. -/
def JVal.isStr : JVal → String → Bool
  | .jstr t, s => t == s
  | _, _ => false

/-- Python (msg.get(k) == "literal"): false when the key is absent. -/
def optIsStr : Option JVal → String → Bool
  | some v, s => v.isStr s
  | none, _ => false

/-- String-coercion behaviour of Python float() and int(), a parameter of the
model: the scripts pass through whatever Python parses, and no claim depends
on which strings parse. sf s / si s is some q when float(s) / int(s)
succeeds. -/
structure PyConv where
  sf : String → Option ℚ
  si : String → Option ℤ

/-- Python float(v) on a JSON value: numbers pass through, booleans become
0/1, strings go through the parser parameter, anything else raises (none). -/
def pyFloat (c : PyConv) : JVal → Option ℚ
  | .jnum q => some q
  | .jbool b => some (if b then 1 else 0)
  | .jstr s => c.sf s
  | _ => none

/-- Python int(v) on a JSON value: numbers truncate toward zero, booleans
become 0/1, strings go through the parser parameter, anything else raises. -/
def pyInt (c : PyConv) : JVal → Option ℤ
  | .jnum q => some (truncQ q)
  | .jbool b => some (if b then 1 else 0)
  | .jstr s => c.si s
  | _ => none

/-- A concrete PyConv for closed evaluations: no string parses. The closed
theorems below never put strings in numeric positions, so their results do
not depend on this choice. -/
def noConv : PyConv := ⟨fun _ => none, fun _ => none⟩

/-- One attempted call into the vendor servo driver. -/
inductive HwCall where
  | bus (sid : ℤ) (pulse : ℤ) (timeMs : ℤ)
  | pwm (ch : ℤ) (us : ℤ) (timeMs : ℤ)
deriving DecidableEq

/-- The safety ranges of claim C9: bus pulse in 0..1000, PWM microseconds in
500..2500, duration non-negative. -/
def HwCall.inRangeB : HwCall → Bool
  | .bus _ p t => decide (0 ≤ p ∧ p ≤ 1000 ∧ 0 ≤ t)
  | .pwm _ u t => decide (500 ≤ u ∧ u ≤ 2500 ∧ 0 ≤ t)

/-- Driver fault model: fault call = true means the underlying SDK method
raises for that call. -/
def noFault : HwCall → Bool := fun _ => false

/-- A driver that raises on every call. -/
def allFault : HwCall → Bool := fun _ => true

namespace ServoReciever

/-- servo_reciever.py degrees_to_pulse (lines 60-63):
clamp to the degree range and convert, round(deg / 180 * 1000). -/
def degrees_to_pulse (deg : ℚ) : ℤ :=
  roundHalfEven (clampQ deg 0 180 / 180 * 1000)

/-- servo_reciever.py degrees_to_pwm_us (lines 66-69):
round(500 + (deg / 180) * 2000). -/
def degrees_to_pwm_us (deg : ℚ) : ℤ :=
  roundHalfEven (500 + clampQ deg 0 180 / 180 * 2000)

/-- servo_reciever.py set_bus_servo (lines 72-89): clamp pulse to 0..1000 and
time to non-negative, return without touching the driver when no SDK was
imported, otherwise attempt one driver call with the whole call wrapped in
try/except, so a driver fault is only printed. Result: (attempted driver
calls, whether a driver error was caught and logged). -/
def set_bus_servo (avail : Bool) (fault : HwCall → Bool) (servo_id : ℤ)
    (pulse timeMs : ℚ) : List HwCall × Bool :=
  let p := truncQ (clampQ pulse 0 1000)
  let t := truncQ (max 0 timeMs)
  if avail then
    let call := HwCall.bus servo_id p t
    ([call], fault call)
  else ([], false)

/-- servo_reciever.py set_pwm_servo (lines 92-107): like set_bus_servo with
the 500..2500 microsecond clamp; driver faults are caught and logged. -/
def set_pwm_servo (avail : Bool) (fault : HwCall → Bool) (channel : ℤ)
    (pulse_us timeMs : ℚ) : List HwCall × Bool :=
  let p := truncQ (clampQ pulse_us 500 2500)
  let t := truncQ (max 0 timeMs)
  if avail then
    let call := HwCall.pwm channel p t
    ([call], fault call)
  else ([], false)

/-- The dense servo loop of do_POST (lines 160-163): for i, deg in
enumerate(degrees): set_bus_servo(i + 1, degrees_to_pulse(deg), 80).
float(deg) inside degrees_to_pulse raises on a non-numeric entry, aborting
the loop; calls already issued stay issued. servo_id is the id of the head
entry (1 at the top call). Result: (attempted calls, an exception escaped). -/
def applyDegrees (c : PyConv) (avail : Bool) (fault : HwCall → Bool) :
    ℤ → List JVal → List HwCall × Bool
  | _, [] => ([], false)
  | servo_id, d :: rest =>
    match pyFloat c d with
    | none => ([], true)
    | some q =>
      let s := set_bus_servo avail fault servo_id ((degrees_to_pulse q : ℤ) : ℚ) 80
      let r := applyDegrees c avail fault (servo_id + 1) rest
      (s.1 ++ r.1, r.2)

/-- One optional head field of do_POST (lines 168-171):
if "p1" in head: set_pwm_servo(ch, degrees_to_pwm_us(head["p1"]), 80).
float() inside degrees_to_pwm_us raises on a non-numeric value; the
set_pwm_servo call itself swallows driver faults. -/
def applyHeadField (c : PyConv) (avail : Bool) (fault : HwCall → Bool)
    (ch : ℤ) (v : Option JVal) : List HwCall × Bool :=
  match v with
  | none => ([], false)
  | some w =>
    match pyFloat c w with
    | none => ([], true)
    | some q =>
      ((set_pwm_servo avail fault ch ((degrees_to_pwm_us q : ℤ) : ℚ) 80).1, false)

/-- The head block of do_POST (lines 166-171): only applied when the value
under "head" is a dict, p1 before p2, aborting at the first raising float. -/
def applyHead (c : PyConv) (avail : Bool) (fault : HwCall → Bool)
    (head : Option JVal) : List HwCall × Bool :=
  match head with
  | some (.jobj fs) =>
    let r1 := applyHeadField c avail fault 1 ((JVal.jobj fs).get "p1")
    if r1.2 then r1
    else
      let r2 := applyHeadField c avail fault 2 ((JVal.jobj fs).get "p2")
      (r1.1 ++ r2.1, r2.2)
  | _ => ([], false)

/-- An HTTP response of the receiver, reduced to what the claims observe:
the status code and the attempted driver calls. A 400 response additionally
carries a JSON error body (lines 185-191); 204/404 carry none. CORS headers
are sent on every branch. -/
structure Result where
  status : ℕ
  calls : List HwCall
deriving DecidableEq

/-- servo_reciever.py ServoHandler.do_POST (lines 139-191). body = none
models a request whose JSON failed to parse (json.loads raises, landing in
the except branch). A top-level non-dict JSON value raises AttributeError at
msg.get, also landing in the except branch with no calls, which coincides
with the kind check failing on JVal.get = none. -/
def do_POST (c : PyConv) (avail : Bool) (fault : HwCall → Bool)
    (path : String) (body : Option JVal) : Result :=
  if path = "/servo" then
    match body with
    | none => ⟨400, []⟩
    | some msg =>
      if optIsStr (msg.get "kind") "humanoid16" then
        match (msg.get "degrees").getD (.jarr []) with
        | .jarr ds =>
          if ds.length = 16 then
            let r := applyDegrees c avail fault 1 ds
            if r.2 then ⟨400, r.1⟩
            else
              let h := applyHead c avail fault (msg.get "head")
              if h.2 then ⟨400, r.1 ++ h.1⟩
              else ⟨204, r.1 ++ h.1⟩
          else ⟨400, []⟩
        | _ => ⟨400, []⟩
      else ⟨400, []⟩
  else ⟨404, []⟩

/-- servo_reciever.py reset_to_neutral (lines 110-118): all 16 bus servos to
pulse 500, then both head PWM channels to 1500, each with the given motion
time. Only the attempted calls are returned; set_bus_servo and set_pwm_servo
swallow driver faults, so the sweep never aborts. -/
def reset_to_neutral (avail : Bool) (fault : HwCall → Bool) (timeMs : ℚ) :
    List HwCall :=
  (List.range 16).foldr
    (fun i acc => (set_bus_servo avail fault ((i : ℤ) + 1) 500 timeMs).1 ++ acc)
    ((set_pwm_servo avail fault 1 1500 timeMs).1 ++
      (set_pwm_servo avail fault 2 1500 timeMs).1)

/-- servo_reciever.py main (lines 207-211): the driver traffic issued before
the HTTPServer is constructed and serve_forever starts, i.e. before the
first client command can be accepted: reset_to_neutral(time_ms=1000) unless
--no-reset was given or no SDK is available. -/
def startupCalls (avail noReset : Bool) (fault : HwCall → Bool) : List HwCall :=
  if ¬ noReset ∧ avail then reset_to_neutral avail fault 1000 else []

end ServoReciever

namespace ServoReceiverWs

/-- servo_receiver_ws.py degrees_to_pulse (lines 47-49), same body as the
HTTP receiver version. -/
def degrees_to_pulse (deg : ℚ) : ℤ :=
  roundHalfEven (clampQ deg 0 180 / 180 * 1000)

/-- servo_receiver_ws.py degrees_to_pwm_us (lines 52-54). -/
def degrees_to_pwm_us (deg : ℚ) : ℤ :=
  roundHalfEven (500 + clampQ deg 0 180 / 180 * 2000)

/-- servo_receiver_ws.py set_bus_servo (lines 57-66): same clamps as the HTTP
receiver, but the driver call is NOT wrapped in try/except, so a driver
fault propagates to the caller. Result: (attempted calls, raised). -/
def set_bus_servo (avail : Bool) (fault : HwCall → Bool) (servo_id : ℤ)
    (pulse timeMs : ℚ) : List HwCall × Bool :=
  let p := truncQ (clampQ pulse 0 1000)
  let t := truncQ (max 0 timeMs)
  if avail then
    let call := HwCall.bus servo_id p t
    ([call], fault call)
  else ([], false)

/-- servo_receiver_ws.py set_pwm_servo (lines 69-78): no try/except, a driver
fault propagates. -/
def set_pwm_servo (avail : Bool) (fault : HwCall → Bool) (channel : ℤ)
    (pulse_us timeMs : ℚ) : List HwCall × Bool :=
  let p := truncQ (clampQ pulse_us 500 2500)
  let t := truncQ (max 0 timeMs)
  if avail then
    let call := HwCall.pwm channel p t
    ([call], fault call)
  else ([], false)

/-- The sparse "servos" loop (lines 91-92): for sid, pulse in servos.items():
set_bus_servo(int(sid), int(pulse), 80). int() raising on a key or value, or
a driver fault inside set_bus_servo, propagates out of the loop. -/
def applyServos (c : PyConv) (avail : Bool) (fault : HwCall → Bool) :
    List (String × JVal) → List HwCall × Bool
  | [] => ([], false)
  | (sid, pulse) :: rest =>
    match c.si sid with
    | none => ([], true)
    | some i =>
      match pyInt c pulse with
      | none => ([], true)
      | some p =>
        let s := set_bus_servo avail fault i (p : ℚ) 80
        if s.2 then (s.1, true)
        else
          let r := applyServos c avail fault rest
          (s.1 ++ r.1, r.2)

/-- One sparse head field (lines 95-98): set_pwm_servo(ch, int(head[k]), 80),
the raw value bypassing degree conversion; int() failures and driver faults
propagate. -/
def applyHeadFieldInt (c : PyConv) (avail : Bool) (fault : HwCall → Bool)
    (ch : ℤ) (v : Option JVal) : List HwCall × Bool :=
  match v with
  | none => ([], false)
  | some w =>
    match pyInt c w with
    | none => ([], true)
    | some p => set_pwm_servo avail fault ch (p : ℚ) 80

/-- One dense head field (lines 110-113):
set_pwm_servo(ch, degrees_to_pwm_us(head[k]), 80); float() failures and
driver faults propagate. -/
def applyHeadFieldDeg (c : PyConv) (avail : Bool) (fault : HwCall → Bool)
    (ch : ℤ) (v : Option JVal) : List HwCall × Bool :=
  match v with
  | none => ([], false)
  | some w =>
    match pyFloat c w with
    | none => ([], true)
    | some q =>
      set_pwm_servo avail fault ch ((degrees_to_pwm_us q : ℤ) : ℚ) 80

/-- The dense degrees loop (lines 106-107): set_bus_servo(i + 1,
degrees_to_pulse(deg), 80); float() failures and driver faults propagate. -/
def applyDegreesWs (c : PyConv) (avail : Bool) (fault : HwCall → Bool) :
    ℤ → List JVal → List HwCall × Bool
  | _, [] => ([], false)
  | servo_id, d :: rest =>
    match pyFloat c d with
    | none => ([], true)
    | some q =>
      let s := set_bus_servo avail fault servo_id ((degrees_to_pulse q : ℤ) : ℚ) 80
      if s.2 then (s.1, true)
      else
        let r := applyDegreesWs c avail fault (servo_id + 1) rest
        (s.1 ++ r.1, r.2)

/-- The p1/p2 fields of data.get("head") when it is a dict (lines 93-98 and
108-113); (none, none) otherwise. -/
def headFields (data : JVal) : Option JVal × Option JVal :=
  match data.get "head" with
  | some (.jobj fs) => ((JVal.jobj fs).get "p1", (JVal.jobj fs).get "p2")
  | _ => (none, none)

/-- Outcome of one inbound frame: attempted driver calls, frames sent back
on the socket, and whether an exception escaped while processing the frame. An
escaped exception is caught by the except around the receive loop
(lines 114-115), which ends the connection handler. -/
structure FrameResult where
  calls : List HwCall
  replies : List JVal
  raised : Bool

/-- servo_receiver_ws.py handler, one iteration of the receive loop
(lines 84-113). frame = none models a frame json.loads cannot parse; a
non-dict frame raises AttributeError at data.get. Note the handler never
sends anything back: replies is [] on every path. -/
def processFrame (c : PyConv) (avail : Bool) (fault : HwCall → Bool)
    (frame : Option JVal) : FrameResult :=
  match frame with
  | none => ⟨[], [], true⟩
  | some data =>
    match data with
    | .jobj _ =>
      if optIsStr (data.get "type") "servos" then
        let sres :=
          match data.get "servos" with
          | some (.jobj fs) => applyServos c avail fault fs
          | _ => ([], false)
        if sres.2 then ⟨sres.1, [], true⟩
        else
          let h1 := applyHeadFieldInt c avail fault 1 (headFields data).1
          if h1.2 then ⟨sres.1 ++ h1.1, [], true⟩
          else
            let h2 := applyHeadFieldInt c avail fault 2 (headFields data).2
            ⟨sres.1 ++ h1.1 ++ h2.1, [], h2.2⟩
      else if optIsStr (data.get "kind") "humanoid16" then
        match data.get "degrees" with
        | some (.jarr ds) =>
          if ds.length = 16 then
            let r := applyDegreesWs c avail fault 1 ds
            if r.2 then ⟨r.1, [], true⟩
            else
              let h1 := applyHeadFieldDeg c avail fault 1 (headFields data).1
              if h1.2 then ⟨r.1 ++ h1.1, [], true⟩
              else
                let h2 := applyHeadFieldDeg c avail fault 2 (headFields data).2
                ⟨r.1 ++ h1.1 ++ h2.1, [], h2.2⟩
          else ⟨[], [], false⟩
        | _ => ⟨[], [], false⟩
      else ⟨[], [], false⟩
    | _ => ⟨[], [], true⟩

/-- The whole receive loop of one connection (async for message in
websocket, lines 84-115): frames are processed in order until one raises;
the escaped exception is caught outside the loop, so the remaining frames of
the connection are never processed. Result: (all attempted calls, all
replies, the frames left unprocessed when the handler ends). -/
def runConn (c : PyConv) (avail : Bool) (fault : HwCall → Bool) :
    List (Option JVal) → List HwCall × List JVal × List (Option JVal)
  | [] => ([], [], [])
  | f :: rest =>
    let r := processFrame c avail fault f
    if r.raised then (r.calls, r.replies, rest)
    else
      let rr := runConn c avail fault rest
      (r.calls ++ rr.1, r.replies ++ rr.2.1, rr.2.2)

end ServoReceiverWs

namespace TonyPiServoServer

/-- tonypi_servo_server.py deg_to_bus_pos (lines 35-38). -/
def deg_to_bus_pos (deg : ℚ) : ℤ :=
  roundHalfEven (clampQ deg 0 180 / 180 * 1000)

/-- tonypi_servo_server.py deg_to_pwm_us (lines 41-44). -/
def deg_to_pwm_us (deg : ℚ) : ℤ :=
  roundHalfEven (500 + clampQ deg 0 180 / 180 * 2000)

/-- The two driver shapes TonyPiController.__init__ probes for, in priority
order (lines 53-73). -/
inductive Mode where
  | hiwonderBoard
  | hiwonderController
deriving DecidableEq

/-- The message of the RuntimeError raised by TonyPiController.__init__ when
neither SDK imports (lines 75-78). -/
def sdkErrorMsg : String :=
  "Could not import a TonyPi servo SDK. On the TonyPi, try locating HiwonderSDK or hiwonder modules."

/-- tonypi_servo_server.py TonyPiController.__init__ (lines 48-78): try
HiwonderSDK.Board, then the hiwonder controller stack; when both probes
fail, raise RuntimeError. main (line 188) calls this unguarded, so the error
propagates and the process exits before the HTTP server is created. -/
def initController (boardOk ctlOk : Bool) : Except String Mode :=
  if boardOk then .ok .hiwonderBoard
  else if ctlOk then .ok .hiwonderController
  else .error sdkErrorMsg

/-- TonyPiController.set_bus_servo (lines 80-92): clamp, then dispatch on
the probed mode; there is no try/except here or in do_POST around single
calls, so a driver fault propagates to the outer try of do_POST. Result:
(attempted calls, raised). -/
def set_bus_servo (mode : Mode) (fault : HwCall → Bool) (servo_id : ℤ)
    (pos durationMs : ℚ) : List HwCall × Bool :=
  let p := truncQ (clampQ pos 0 1000)
  let t := truncQ (max 0 durationMs)
  let call := HwCall.bus servo_id p t
  match mode with
  | .hiwonderBoard => ([call], fault call)
  | .hiwonderController => ([call], fault call)

/-- TonyPiController.set_pwm_servo (lines 94-105). -/
def set_pwm_servo (mode : Mode) (fault : HwCall → Bool) (channel : ℤ)
    (us durationMs : ℚ) : List HwCall × Bool :=
  let p := truncQ (clampQ us 500 2500)
  let t := truncQ (max 0 durationMs)
  let call := HwCall.pwm channel p t
  match mode with
  | .hiwonderBoard => ([call], fault call)
  | .hiwonderController => ([call], fault call)

/-- The comprehension [float(x) for x in deg] (line 115): all 16 values are
converted before any hardware call; the first non-numeric value raises. -/
def floatList (c : PyConv) : List JVal → Option (List ℚ)
  | [] => some []
  | d :: rest =>
    match pyFloat c d with
    | none => none
    | some q =>
      match floatList c rest with
      | none => none
      | some qs => some (q :: qs)

/-- tonypi_servo_server.py parse_payload (lines 108-119). Except.error is a
raised ValueError / TypeError, caught by do_POST. The head dict is only used
when both p1 and p2 are present; otherwise head is None. -/
def parse_payload (c : PyConv) (body : Option JVal) :
    Except Unit (List ℚ × Option (ℚ × ℚ)) :=
  match body with
  | none => .error ()
  | some msg =>
    if optIsStr (msg.get "kind") "humanoid16" then
      match msg.get "degrees" with
      | some (.jarr ds) =>
        if ds.length = 16 then
          match floatList c ds with
          | none => .error ()
          | some qs =>
            match msg.get "head" with
            | some (.jobj fs) =>
              match (JVal.jobj fs).get "p1", (JVal.jobj fs).get "p2" with
              | some v1, some v2 =>
                match pyFloat c v1, pyFloat c v2 with
                | some q1, some q2 => .ok (qs, some (q1, q2))
                | _, _ => .error ()
              | _, _ => .ok (qs, none)
            | _ => .ok (qs, none)
        else .error ()
      | _ => .error ()
    else .error ()

/-- The dense loop of do_POST (lines 160-162): for i, d in
enumerate(degrees, start=1): set_bus_servo(i, deg_to_bus_pos(d), move_ms).
A driver fault aborts the loop and propagates to the outer try. -/
def applyAll (mode : Mode) (fault : HwCall → Bool) (moveMs : ℚ) :
    ℤ → List ℚ → List HwCall × Bool
  | _, [] => ([], false)
  | servo_id, q :: rest =>
    let s := set_bus_servo mode fault servo_id ((deg_to_bus_pos q : ℤ) : ℚ) moveMs
    if s.2 then (s.1, true)
    else
      let r := applyAll mode fault moveMs (servo_id + 1) rest
      (s.1 ++ r.1, r.2)

/-- The head block of do_POST (lines 165-167). -/
def applyHead (mode : Mode) (fault : HwCall → Bool) (moveMs : ℚ)
    (head : Option (ℚ × ℚ)) : List HwCall × Bool :=
  match head with
  | none => ([], false)
  | some (p1, p2) =>
    let s1 := set_pwm_servo mode fault 1 ((deg_to_pwm_us p1 : ℤ) : ℚ) moveMs
    if s1.2 then (s1.1, true)
    else
      let s2 := set_pwm_servo mode fault 2 ((deg_to_pwm_us p2 : ℤ) : ℚ) moveMs
      (s1.1 ++ s2.1, s2.2)

/-- The instance attributes of a Handler object that do_POST reads. The
class body of Handler (lines 123-126) contains only type annotations, which
create no attributes, so each field is genuinely absent (none) until some
assignment creates it. -/
structure Attrs where
  controller : Option Mode
  move_ms : Option ℚ
  last_at : Option ℚ
  min_interval_s : Option ℚ
deriving DecidableEq

/-- The attribute state under which every request is actually handled:
handler_factory (lines 193-199) assigns controller/move_ms/last_at/
min_interval_s to the Handler object only after Handler(*_a, **_kw) has
returned, but socketserver.BaseRequestHandler.__init__ runs setup/handle/
finish during construction, and BaseHTTPRequestHandler.handle serves every
request of the connection inside that call. So by the time the factory
assigns anything, all requests of the connection are already handled, and
do_POST always runs with all four attributes unset. -/
def duringInitAttrs : Attrs := ⟨none, none, none, none⟩

/-- handler_factory line 198: min_interval_s = 1.0 / max(1.0, max_fps). -/
def min_interval_s (maxFps : ℚ) : ℚ := 1 / max 1 maxFps

/-- The attributes handler_factory installs on the already-finished handler
(lines 195-198): the probed controller, the configured move_ms, last_at = 0,
and the interval derived from max_fps. No request is ever processed while
these are set; they are recorded here to state what the rate-limiter code
would do if they were. -/
def factoryAttrs (ctrlMode : Mode) (moveMs maxFps : ℚ) : Attrs :=
  ⟨some ctrlMode, some moveMs, some 0, some (min_interval_s maxFps)⟩

/-- tonypi_servo_server.py Handler.do_POST (lines 138-177), faithful to the
attribute semantics. Result: (attempted driver calls, response), where the
response is none when an exception escapes do_POST unhandled (the connection
is aborted with no status line at all) and some (attrs2, status) when a
response with that status is sent, attrs2 being the instance attributes
afterwards. The 404 branch for other paths (lines 139-143) reads no
attribute.
On /servo, line 147 reads self.last_at and self.min_interval_s OUTSIDE the
try that starts at line 154: if either is unset, the AttributeError
propagates: no response, no hardware call. Only past the rate check is
last_at assigned (line 152) and the body parsed; inside the try, a missing
self.controller or self.move_ms raises AttributeError into the except
branch, a 400 with no calls. -/
def do_POST (c : PyConv) (fault : HwCall → Bool) (self : Attrs) (now : ℚ)
    (path : String) (body : Option JVal) :
    List HwCall × Option (Attrs × ℕ) :=
  if path = "/servo" then
    match self.last_at with
    | none => ([], none)
    | some la =>
      match self.min_interval_s with
      | none => ([], none)
      | some mi =>
        if now - la < mi then ([], some (self, 204))
        else
          let self2 : Attrs := { self with last_at := some now }
          match parse_payload c body with
          | .error _ => ([], some (self2, 400))
          | .ok (qs, head) =>
            match self2.controller, self2.move_ms with
            | some mode, some mv =>
              let r := applyAll mode fault mv 1 qs
              if r.2 then (r.1, some (self2, 400))
              else
                let h := applyHead mode fault mv head
                if h.2 then (r.1 ++ h.1, some (self2, 400))
                else (r.1 ++ h.1, some (self2, 204))
            | _, _ => ([], some (self2, 400))
  else ([], some (self, 404))

end TonyPiServoServer

namespace ServoClient

/-- servo_client.py degrees_to_pulse (lines 37-41): clamps the input degrees
to the safety range 10..170, then truncates (degrees / 180) * 1000 with
int(), with no rounding. -/
def degrees_to_pulse (degrees : ℚ) : ℤ :=
  truncQ (clampQ degrees 10 170 / 180 * 1000)

/-- servo_client.py pulse_to_degrees (lines 44-47), without the display
rounding to one decimal place: (pulse / 1000) * 180. -/
def pulse_to_degrees (pulse : ℚ) : ℚ := pulse / 1000 * 180

end ServoClient

/-- The canonical dense body with the given raw degrees entries. -/
def denseBodyRaw (ds : List JVal) : JVal :=
  .jobj [("kind", .jstr "humanoid16"), ("degrees", .jarr ds)]

/-- The canonical dense body with the given numeric degrees. -/
def denseBodyOf (qs : List ℚ) : JVal := denseBodyRaw (qs.map .jnum)

/-- A valid dense command: all 16 joints at 90 degrees, no head. -/
def dense90Body : JVal := denseBodyOf (List.replicate 16 90)

/-- The ping frame of the streaming protocol. -/
def pingFrame : JVal := .jobj [("type", .jstr "ping")]

namespace ServoReciever

theorem degrees_to_pulse_mono {d1 d2 : ℚ} (h : d1 ≤ d2) :
    degrees_to_pulse d1 ≤ degrees_to_pulse d2 := by
  unfold degrees_to_pulse
  apply roundHalfEven_mono
  have hc : clampQ d1 0 180 ≤ clampQ d2 0 180 := clampQ_mono 0 180 h
  gcongr

theorem degrees_to_pulse_nonneg (d : ℚ) : 0 ≤ degrees_to_pulse d := by
  unfold degrees_to_pulse
  have hc := clampQ_lower d 0 180
  have h0 : (0:ℚ) ≤ clampQ d 0 180 / 180 * 1000 := by linarith
  have h1 : (0:ℤ) ≤ ⌊clampQ d 0 180 / 180 * 1000⌋ :=
    Int.le_floor.mpr (by exact_mod_cast h0)
  have h2 := floor_le_roundHalfEven (clampQ d 0 180 / 180 * 1000)
  omega

theorem degrees_to_pulse_le (d : ℚ) : degrees_to_pulse d ≤ 1000 := by
  unfold degrees_to_pulse
  have hc : clampQ d 0 180 ≤ 180 := clampQ_upper d (by norm_num)
  have h0 : clampQ d 0 180 / 180 * 1000 ≤ 1000 := by linarith
  have h1 : ⌈clampQ d 0 180 / 180 * 1000⌉ ≤ (1000:ℤ) :=
    Int.ceil_le.mpr (by exact_mod_cast h0)
  have h2 := roundHalfEven_le_ceil (clampQ d 0 180 / 180 * 1000)
  omega

theorem degrees_to_pulse_of_nonpos {d : ℚ} (h : d ≤ 0) :
    degrees_to_pulse d = degrees_to_pulse 0 := by
  unfold degrees_to_pulse
  rw [clampQ_of_le (by norm_num) h, clampQ_of_le (by norm_num) (le_refl 0)]

theorem degrees_to_pulse_of_ge {d : ℚ} (h : 180 ≤ d) :
    degrees_to_pulse d = degrees_to_pulse 180 := by
  unfold degrees_to_pulse
  rw [clampQ_of_ge (by norm_num) h, clampQ_of_ge (by norm_num) (le_refl 180)]

theorem degrees_to_pulse_zero : degrees_to_pulse 0 = 0 := by
  norm_num [degrees_to_pulse, roundHalfEven, clampQ]

theorem degrees_to_pulse_90 : degrees_to_pulse 90 = 500 := by
  norm_num [degrees_to_pulse, roundHalfEven, clampQ]

theorem degrees_to_pulse_180 : degrees_to_pulse 180 = 1000 := by
  norm_num [degrees_to_pulse, roundHalfEven, clampQ]

theorem degrees_to_pwm_us_90 : degrees_to_pwm_us 90 = 1500 := by
  norm_num [degrees_to_pwm_us, roundHalfEven, clampQ]

theorem degrees_to_pwm_us_ge (d : ℚ) : 500 ≤ degrees_to_pwm_us d := by
  unfold degrees_to_pwm_us
  have hc := clampQ_lower d 0 180
  have h0 : (500:ℚ) ≤ 500 + clampQ d 0 180 / 180 * 2000 := by linarith
  have h1 : (500:ℤ) ≤ ⌊500 + clampQ d 0 180 / 180 * 2000⌋ :=
    Int.le_floor.mpr (by exact_mod_cast h0)
  have h2 := floor_le_roundHalfEven (500 + clampQ d 0 180 / 180 * 2000)
  omega

theorem degrees_to_pwm_us_le (d : ℚ) : degrees_to_pwm_us d ≤ 2500 := by
  unfold degrees_to_pwm_us
  have hc : clampQ d 0 180 ≤ 180 := clampQ_upper d (by norm_num)
  have h0 : 500 + clampQ d 0 180 / 180 * 2000 ≤ 2500 := by linarith
  have h1 : ⌈500 + clampQ d 0 180 / 180 * 2000⌉ ≤ (2500:ℤ) :=
    Int.ceil_le.mpr (by exact_mod_cast h0)
  have h2 := roundHalfEven_le_ceil (500 + clampQ d 0 180 / 180 * 2000)
  omega

end ServoReciever

namespace ServoClient

theorem degrees_to_pulse_mono_sc {d1 d2 : ℚ} (h : d1 ≤ d2) :
    degrees_to_pulse d1 ≤ degrees_to_pulse d2 := by
  unfold degrees_to_pulse
  apply truncQ_mono
  have hc : clampQ d1 10 170 ≤ clampQ d2 10 170 := clampQ_mono 10 170 h
  gcongr

theorem degrees_to_pulse_nonneg_sc (d : ℚ) : 0 ≤ degrees_to_pulse d := by
  unfold degrees_to_pulse
  have hc := clampQ_lower d 10 170
  have h0 : ((0:ℤ) : ℚ) ≤ clampQ d 10 170 / 180 * 1000 := by push_cast; linarith
  exact truncQ_ge h0

theorem degrees_to_pulse_le_sc (d : ℚ) : degrees_to_pulse d ≤ 1000 := by
  unfold degrees_to_pulse
  have hc : clampQ d 10 170 ≤ 170 := clampQ_upper d (by norm_num)
  have h0 : clampQ d 10 170 / 180 * 1000 ≤ ((1000:ℤ) : ℚ) := by push_cast; linarith
  exact truncQ_le h0

theorem degrees_to_pulse_zero_sc : degrees_to_pulse 0 = 55 := by
  norm_num [degrees_to_pulse, truncQ, clampQ, Int.floor_eq_iff]

theorem degrees_to_pulse_180_sc : degrees_to_pulse 180 = 944 := by
  norm_num [degrees_to_pulse, truncQ, clampQ, Int.floor_eq_iff]

end ServoClient

/-- C1: the three receiver-side conversion functions (servo_reciever.py
degrees_to_pulse, servo_receiver_ws.py degrees_to_pulse, and
tonypi_servo_server.py deg_to_bus_pos, the last two definitionally equal to
the first) clamp the input to 0..180 and return round(d / 180 * 1000): the
result is in 0..1000, monotonically non-decreasing, 0 at 0, 500 at 90, 1000
at 180, and any input outside 0..180 behaves as the nearest bound. The
fourth conversion function, servo_client.py degrees_to_pulse, instead clamps
the input to the 10..170 safety range and truncates instead of rounding, so
it maps 0 to 55 and 180 to 944 (still monotone and within 0..1000). -/
theorem C1_theorem :
    (∀ d1 d2 : ℚ, d1 ≤ d2 →
      ServoReciever.degrees_to_pulse d1 ≤ ServoReciever.degrees_to_pulse d2) ∧
    (∀ d : ℚ, 0 ≤ ServoReciever.degrees_to_pulse d ∧
      ServoReciever.degrees_to_pulse d ≤ 1000) ∧
    ServoReciever.degrees_to_pulse 0 = 0 ∧
    ServoReciever.degrees_to_pulse 90 = 500 ∧
    ServoReciever.degrees_to_pulse 180 = 1000 ∧
    (∀ d : ℚ, d ≤ 0 →
      ServoReciever.degrees_to_pulse d = ServoReciever.degrees_to_pulse 0) ∧
    (∀ d : ℚ, 180 ≤ d →
      ServoReciever.degrees_to_pulse d = ServoReciever.degrees_to_pulse 180) ∧
    (∀ d : ℚ, ServoReceiverWs.degrees_to_pulse d = ServoReciever.degrees_to_pulse d) ∧
    (∀ d : ℚ, TonyPiServoServer.deg_to_bus_pos d = ServoReciever.degrees_to_pulse d) ∧
    (∀ d1 d2 : ℚ, d1 ≤ d2 →
      ServoClient.degrees_to_pulse d1 ≤ ServoClient.degrees_to_pulse d2) ∧
    (∀ d : ℚ, 0 ≤ ServoClient.degrees_to_pulse d ∧
      ServoClient.degrees_to_pulse d ≤ 1000) ∧
    ServoClient.degrees_to_pulse 0 = 55 ∧
    ServoClient.degrees_to_pulse 180 = 944 :=
  ⟨fun _ _ h => ServoReciever.degrees_to_pulse_mono h,
   fun d => ⟨ServoReciever.degrees_to_pulse_nonneg d, ServoReciever.degrees_to_pulse_le d⟩,
   ServoReciever.degrees_to_pulse_zero,
   ServoReciever.degrees_to_pulse_90,
   ServoReciever.degrees_to_pulse_180,
   fun _ h => ServoReciever.degrees_to_pulse_of_nonpos h,
   fun _ h => ServoReciever.degrees_to_pulse_of_ge h,
   fun _ => rfl,
   fun _ => rfl,
   fun _ _ h => ServoClient.degrees_to_pulse_mono_sc h,
   fun d => ⟨ServoClient.degrees_to_pulse_nonneg_sc d, ServoClient.degrees_to_pulse_le_sc d⟩,
   ServoClient.degrees_to_pulse_zero_sc,
   ServoClient.degrees_to_pulse_180_sc⟩

/-- C1 counterexample: the claim requires every degree-to-bus-pulse
conversion function to send 0 to round(0 / 180 * 1000) = 0, but
servo_client.py degrees_to_pulse sends 0 to 55 because it clamps the input
to 10..170 before converting. -/
theorem C1_counterexample : ServoClient.degrees_to_pulse 0 ≠ 0 := by
  rw [ServoClient.degrees_to_pulse_zero_sc]
  decide

/-- C1 witness: the quantified parts of C1_theorem at concrete inputs. -/
theorem C1_witness :
    ServoReciever.degrees_to_pulse 30 ≤ ServoReciever.degrees_to_pulse 60 ∧
    ServoReciever.degrees_to_pulse (-10) = ServoReciever.degrees_to_pulse 0 ∧
    ServoReciever.degrees_to_pulse 200 = ServoReciever.degrees_to_pulse 180 ∧
    ServoClient.degrees_to_pulse 30 ≤ ServoClient.degrees_to_pulse 60 := by
  obtain ⟨h1, _, _, _, _, h6, h7, _, _, h10, _⟩ := C1_theorem
  exact ⟨h1 30 60 (by norm_num), h6 (-10) (by norm_num), h7 200 (by norm_num),
    h10 30 60 (by norm_num)⟩

/-- Any bus call built from the shared clamp pattern
int(clamp(pulse, 0, 1000)), int(max(0, time)) is in range. -/
theorem busCall_inRange (sid : ℤ) (pulse timeMs : ℚ) :
    (HwCall.bus sid (truncQ (clampQ pulse 0 1000)) (truncQ (max 0 timeMs))).inRangeB
      = true := by
  simp only [HwCall.inRangeB, decide_eq_true_eq]
  refine ⟨?_, ?_, ?_⟩
  · exact truncQ_ge (by push_cast; exact clampQ_lower pulse 0 1000)
  · exact truncQ_le (by push_cast; exact clampQ_upper pulse (by norm_num))
  · exact truncQ_ge (by push_cast; exact le_max_left 0 timeMs)

/-- Any PWM call built from int(clamp(us, 500, 2500)), int(max(0, time)) is
in range. -/
theorem pwmCall_inRange (ch : ℤ) (us timeMs : ℚ) :
    (HwCall.pwm ch (truncQ (clampQ us 500 2500)) (truncQ (max 0 timeMs))).inRangeB
      = true := by
  simp only [HwCall.inRangeB, decide_eq_true_eq]
  refine ⟨?_, ?_, ?_⟩
  · exact truncQ_ge (by push_cast; exact clampQ_lower us 500 2500)
  · exact truncQ_le (by push_cast; exact clampQ_upper us (by norm_num))
  · exact truncQ_ge (by push_cast; exact le_max_left 0 timeMs)

namespace ServoReciever

theorem set_bus_servo_all (avail : Bool) (fault : HwCall → Bool) (servo_id : ℤ)
    (pulse timeMs : ℚ) :
    ((set_bus_servo avail fault servo_id pulse timeMs).1).all HwCall.inRangeB
      = true := by
  unfold set_bus_servo
  cases avail <;> simp [busCall_inRange]

theorem set_pwm_servo_all (avail : Bool) (fault : HwCall → Bool) (channel : ℤ)
    (pulse_us timeMs : ℚ) :
    ((set_pwm_servo avail fault channel pulse_us timeMs).1).all HwCall.inRangeB
      = true := by
  unfold set_pwm_servo
  cases avail <;> simp [pwmCall_inRange]

theorem applyDegrees_all (c : PyConv) (avail : Bool) (fault : HwCall → Bool) :
    ∀ (servo_id : ℤ) (ds : List JVal),
      ((applyDegrees c avail fault servo_id ds).1).all HwCall.inRangeB = true := by
  intro servo_id ds
  induction ds generalizing servo_id with
  | nil => rfl
  | cons d rest ih =>
    cases h : pyFloat c d with
    | none => simp [applyDegrees, h]
    | some q => simp [applyDegrees, h, List.all_append, set_bus_servo_all, ih]

theorem applyHeadField_all (c : PyConv) (avail : Bool) (fault : HwCall → Bool)
    (ch : ℤ) (v : Option JVal) :
    ((applyHeadField c avail fault ch v).1).all HwCall.inRangeB = true := by
  cases v with
  | none => rfl
  | some w =>
    cases h : pyFloat c w with
    | none => simp [applyHeadField, h]
    | some q => simp [applyHeadField, h, set_pwm_servo_all]

theorem applyHead_all (c : PyConv) (avail : Bool) (fault : HwCall → Bool)
    (head : Option JVal) :
    ((applyHead c avail fault head).1).all HwCall.inRangeB = true := by
  match head with
  | none => rfl
  | some (.jnum _) => rfl
  | some (.jstr _) => rfl
  | some (.jbool _) => rfl
  | some .jnull => rfl
  | some (.jarr _) => rfl
  | some (.jobj fs) =>
    by_cases h1 : (applyHeadField c avail fault 1 ((JVal.jobj fs).get "p1")).2
    · simp [applyHead, h1, applyHeadField_all]
    · simp [applyHead, h1, List.all_append, applyHeadField_all]

theorem do_POST_all (c : PyConv) (avail : Bool) (fault : HwCall → Bool)
    (path : String) (body : Option JVal) :
    ((do_POST c avail fault path body).calls).all HwCall.inRangeB = true := by
  simp only [do_POST]
  repeat' split
  all_goals simp_all [List.all_append, applyDegrees_all, applyHead_all]

end ServoReciever

namespace ServoReceiverWs

theorem set_bus_servo_all_ws (avail : Bool) (fault : HwCall → Bool) (servo_id : ℤ)
    (pulse timeMs : ℚ) :
    ((set_bus_servo avail fault servo_id pulse timeMs).1).all HwCall.inRangeB
      = true := by
  unfold set_bus_servo
  cases avail <;> simp [busCall_inRange]

theorem set_pwm_servo_all_ws (avail : Bool) (fault : HwCall → Bool) (channel : ℤ)
    (pulse_us timeMs : ℚ) :
    ((set_pwm_servo avail fault channel pulse_us timeMs).1).all HwCall.inRangeB
      = true := by
  unfold set_pwm_servo
  cases avail <;> simp [pwmCall_inRange]

theorem applyServos_all (c : PyConv) (avail : Bool) (fault : HwCall → Bool) :
    ∀ fs : List (String × JVal),
      ((applyServos c avail fault fs).1).all HwCall.inRangeB = true := by
  intro fs
  induction fs with
  | nil => rfl
  | cons p rest ih =>
    obtain ⟨sid, pulse⟩ := p
    cases h1 : c.si sid with
    | none => simp [applyServos, h1]
    | some i =>
      cases h2 : pyInt c pulse with
      | none => simp [applyServos, h1, h2]
      | some pv =>
        by_cases hf : (set_bus_servo avail fault i (pv : ℚ) 80).2
        · simp [applyServos, h1, h2, hf, set_bus_servo_all_ws]
        · simp [applyServos, h1, h2, hf, List.all_append, set_bus_servo_all_ws, ih]

theorem applyHeadFieldInt_all (c : PyConv) (avail : Bool) (fault : HwCall → Bool)
    (ch : ℤ) (v : Option JVal) :
    ((applyHeadFieldInt c avail fault ch v).1).all HwCall.inRangeB = true := by
  cases v with
  | none => rfl
  | some w =>
    cases h : pyInt c w with
    | none => simp [applyHeadFieldInt, h]
    | some p => simp [applyHeadFieldInt, h, set_pwm_servo_all_ws]

theorem applyHeadFieldDeg_all (c : PyConv) (avail : Bool) (fault : HwCall → Bool)
    (ch : ℤ) (v : Option JVal) :
    ((applyHeadFieldDeg c avail fault ch v).1).all HwCall.inRangeB = true := by
  cases v with
  | none => rfl
  | some w =>
    cases h : pyFloat c w with
    | none => simp [applyHeadFieldDeg, h]
    | some q => simp [applyHeadFieldDeg, h, set_pwm_servo_all_ws]

theorem applyDegreesWs_all (c : PyConv) (avail : Bool) (fault : HwCall → Bool) :
    ∀ (servo_id : ℤ) (ds : List JVal),
      ((applyDegreesWs c avail fault servo_id ds).1).all HwCall.inRangeB = true := by
  intro servo_id ds
  induction ds generalizing servo_id with
  | nil => rfl
  | cons d rest ih =>
    cases h : pyFloat c d with
    | none => simp [applyDegreesWs, h]
    | some q =>
      by_cases hf :
        (set_bus_servo avail fault servo_id ((degrees_to_pulse q : ℤ) : ℚ) 80).2
      · simp [applyDegreesWs, h, hf, set_bus_servo_all_ws]
      · simp [applyDegreesWs, h, hf, List.all_append, set_bus_servo_all_ws, ih]

theorem processFrame_all (c : PyConv) (avail : Bool) (fault : HwCall → Bool)
    (frame : Option JVal) :
    ((processFrame c avail fault frame).calls).all HwCall.inRangeB = true := by
  simp only [processFrame]
  repeat' split
  all_goals simp_all [List.all_append, applyServos_all, applyHeadFieldInt_all,
    applyHeadFieldDeg_all, applyDegreesWs_all]

end ServoReceiverWs

namespace TonyPiServoServer

theorem set_bus_servo_all_tp (mode : Mode) (fault : HwCall → Bool) (servo_id : ℤ)
    (pos durationMs : ℚ) :
    ((set_bus_servo mode fault servo_id pos durationMs).1).all HwCall.inRangeB
      = true := by
  unfold set_bus_servo
  cases mode <;> simp [busCall_inRange]

theorem set_pwm_servo_all_tp (mode : Mode) (fault : HwCall → Bool) (channel : ℤ)
    (us durationMs : ℚ) :
    ((set_pwm_servo mode fault channel us durationMs).1).all HwCall.inRangeB
      = true := by
  unfold set_pwm_servo
  cases mode <;> simp [pwmCall_inRange]

theorem applyAll_all (mode : Mode) (fault : HwCall → Bool) (moveMs : ℚ) :
    ∀ (servo_id : ℤ) (qs : List ℚ),
      ((applyAll mode fault moveMs servo_id qs).1).all HwCall.inRangeB = true := by
  intro servo_id qs
  induction qs generalizing servo_id with
  | nil => rfl
  | cons q rest ih =>
    by_cases hf :
      (set_bus_servo mode fault servo_id ((deg_to_bus_pos q : ℤ) : ℚ) moveMs).2
    · simp [applyAll, hf, set_bus_servo_all_tp]
    · simp [applyAll, hf, List.all_append, set_bus_servo_all_tp, ih]

theorem applyHead_all_tp (mode : Mode) (fault : HwCall → Bool) (moveMs : ℚ)
    (head : Option (ℚ × ℚ)) :
    ((applyHead mode fault moveMs head).1).all HwCall.inRangeB = true := by
  simp only [applyHead]
  repeat' split
  all_goals simp_all [List.all_append, set_pwm_servo_all_tp]

theorem do_POST_all_tp (c : PyConv) (fault : HwCall → Bool) (self : Attrs)
    (now : ℚ) (path : String) (body : Option JVal) :
    ((do_POST c fault self now path body).1).all HwCall.inRangeB = true := by
  simp only [do_POST]
  repeat' split
  all_goals simp_all [List.all_append, applyAll_all, applyHead_all_tp]

end TonyPiServoServer

/-- C9: every value handed to the underlying servo driver is range-clamped at
the backend regardless of the command form: on every code path of all three
bridges (HTTP receiver do_POST, ws receiver processFrame including the sparse
"servos" form whose pulses bypass degree conversion, tonypi do_POST), every
attempted driver call has bus pulse in 0..1000, PWM microseconds in
500..2500, and a non-negative integer duration. -/
theorem C9_theorem :
    (∀ (c : PyConv) (avail : Bool) (fault : HwCall → Bool) (path : String)
        (body : Option JVal),
      ((ServoReciever.do_POST c avail fault path body).calls).all
        HwCall.inRangeB = true) ∧
    (∀ (c : PyConv) (avail : Bool) (fault : HwCall → Bool) (frame : Option JVal),
      ((ServoReceiverWs.processFrame c avail fault frame).calls).all
        HwCall.inRangeB = true) ∧
    (∀ (c : PyConv) (fault : HwCall → Bool) (self : TonyPiServoServer.Attrs)
        (now : ℚ) (path : String) (body : Option JVal),
      ((TonyPiServoServer.do_POST c fault self now path body).1).all
        HwCall.inRangeB = true) :=
  ⟨ServoReciever.do_POST_all, ServoReceiverWs.processFrame_all,
    TonyPiServoServer.do_POST_all_tp⟩

theorem denseBodyRaw_get_kind (ds : List JVal) :
    (denseBodyRaw ds).get "kind" = some (.jstr "humanoid16") := rfl

theorem denseBodyRaw_get_degrees (ds : List JVal) :
    (denseBodyRaw ds).get "degrees" = some (.jarr ds) := rfl

theorem denseBodyRaw_get_head (ds : List JVal) :
    (denseBodyRaw ds).get "head" = none := rfl

theorem denseBodyRaw_get_type (ds : List JVal) :
    (denseBodyRaw ds).get "type" = none := rfl

/-- The bus calls a fully processed dense batch attempts: one call per entry,
pulse degrees_to_pulse(q), duration 80, servo ids counting up. (The ws
receiver function degrees_to_pulse is definitionally the same.) -/
def denseCalls : ℤ → List ℚ → List HwCall
  | _, [] => []
  | servo_id, q :: rest =>
    HwCall.bus servo_id (ServoReciever.degrees_to_pulse q) 80 ::
      denseCalls (servo_id + 1) rest

theorem denseCalls_length : ∀ (servo_id : ℤ) (qs : List ℚ),
    (denseCalls servo_id qs).length = qs.length
  | _, [] => rfl
  | servo_id, _ :: rest => by
    simp [denseCalls, denseCalls_length (servo_id + 1) rest]

theorem truncQ_80 : truncQ ((80:ℚ)) = 80 := by norm_num [truncQ]

theorem clampQ_trunc_intCast {p : ℤ} (h0 : 0 ≤ p) (h1 : p ≤ 1000) :
    truncQ (clampQ (p : ℚ) 0 1000) = p := by
  rw [clampQ_eq_self (by exact_mod_cast h0) (by exact_mod_cast h1),
    truncQ_intCast]

theorem clampQ_trunc_intCast_pwm {p : ℤ} (h0 : 500 ≤ p) (h1 : p ≤ 2500) :
    truncQ (clampQ (p : ℚ) 500 2500) = p := by
  rw [clampQ_eq_self (by exact_mod_cast h0) (by exact_mod_cast h1),
    truncQ_intCast]

namespace ServoReciever

theorem set_bus_servo_eval (fault : HwCall → Bool) (servo_id : ℤ) {p : ℤ}
    (h0 : 0 ≤ p) (h1 : p ≤ 1000) :
    set_bus_servo true fault servo_id (p : ℚ) 80 =
      ([HwCall.bus servo_id p 80], fault (HwCall.bus servo_id p 80)) := by
  simp [set_bus_servo, clampQ_trunc_intCast h0 h1, truncQ_80,
    max_eq_right (by norm_num : (0:ℚ) ≤ 80)]

theorem set_pwm_servo_eval (fault : HwCall → Bool) (channel : ℤ) {p : ℤ}
    (h0 : 500 ≤ p) (h1 : p ≤ 2500) :
    set_pwm_servo true fault channel (p : ℚ) 80 =
      ([HwCall.pwm channel p 80], fault (HwCall.pwm channel p 80)) := by
  simp [set_pwm_servo, clampQ_trunc_intCast_pwm h0 h1, truncQ_80,
    max_eq_right (by norm_num : (0:ℚ) ≤ 80)]

/-- With a hardware backend, a batch of numeric degrees attempts one bus call
per entry, independent of which driver calls fault (set_bus_servo catches
driver errors per call), and no exception escapes the loop. -/
theorem applyDegrees_num (c : PyConv) (fault : HwCall → Bool) :
    ∀ (servo_id : ℤ) (qs : List ℚ),
      applyDegrees c true fault servo_id (qs.map .jnum) =
        (denseCalls servo_id qs, false) := by
  intro servo_id qs
  induction qs generalizing servo_id with
  | nil => rfl
  | cons q rest ih =>
    simp [applyDegrees, pyFloat, denseCalls, ih,
      set_bus_servo_eval fault servo_id (degrees_to_pulse_nonneg q)
        (degrees_to_pulse_le q)]

/-- Without a hardware backend, the same batch attempts nothing. -/
theorem applyDegrees_num_noavail (c : PyConv) (fault : HwCall → Bool) :
    ∀ (servo_id : ℤ) (qs : List ℚ),
      applyDegrees c false fault servo_id (qs.map .jnum) = ([], false) := by
  intro servo_id qs
  induction qs generalizing servo_id with
  | nil => rfl
  | cons q rest ih => simp [applyDegrees, pyFloat, set_bus_servo, ih]

/-- A batch whose numeric prefix is followed by a non-coercible entry
applies exactly the prefix, then raises: partial application. -/
theorem applyDegrees_interrupted (c : PyConv) (fault : HwCall → Bool) :
    ∀ (servo_id : ℤ) (qs : List ℚ) (rest : List JVal),
      applyDegrees c true fault servo_id (qs.map .jnum ++ .jnull :: rest) =
        (denseCalls servo_id qs, true) := by
  intro servo_id qs rest
  induction qs generalizing servo_id with
  | nil => rfl
  | cons q qrest ih =>
    simp [applyDegrees, pyFloat, denseCalls, ih,
      set_bus_servo_eval fault servo_id (degrees_to_pulse_nonneg q)
        (degrees_to_pulse_le q)]

/-- do_POST on a headless dense body of the right length reduces to the
outcome of the degrees loop. -/
theorem do_POST_body16 (c : PyConv) (avail : Bool) (fault : HwCall → Bool)
    (ds : List JVal) (h : ds.length = 16) :
    do_POST c avail fault "/servo" (some (denseBodyRaw ds)) =
      (if (applyDegrees c avail fault 1 ds).2 then
        ⟨400, (applyDegrees c avail fault 1 ds).1⟩
      else ⟨204, (applyDegrees c avail fault 1 ds).1⟩) := by
  simp only [do_POST, denseBodyRaw_get_kind, denseBodyRaw_get_degrees,
    denseBodyRaw_get_head, Option.getD_some, optIsStr, JVal.isStr,
    beq_self_eq_true, eq_self_iff_true, if_true, h, applyHead,
    List.append_nil]
  simp

/-- A well-formed dense command with a backend present: 204, and all 16
joints attempted whatever the driver faults are. -/
theorem do_POST_dense (c : PyConv) (fault : HwCall → Bool)
    (qs : List ℚ) (h : qs.length = 16) :
    do_POST c true fault "/servo" (some (denseBodyOf qs)) =
      ⟨204, denseCalls 1 qs⟩ := by
  rw [denseBodyOf, do_POST_body16 c true fault _ (by simpa using h),
    applyDegrees_num]
  simp

theorem do_POST_malformed (c : PyConv) (avail : Bool) (fault : HwCall → Bool) :
    do_POST c avail fault "/servo" none = ⟨400, []⟩ := rfl

theorem do_POST_badkind (c : PyConv) (avail : Bool) (fault : HwCall → Bool)
    (msg : JVal) (h : optIsStr (msg.get "kind") "humanoid16" = false) :
    do_POST c avail fault "/servo" (some msg) = ⟨400, []⟩ := by
  simp [do_POST, h]

theorem do_POST_badlen (c : PyConv) (avail : Bool) (fault : HwCall → Bool)
    (ds : List JVal) (h : ds.length ≠ 16) :
    do_POST c avail fault "/servo" (some (denseBodyRaw ds)) = ⟨400, []⟩ := by
  simp [do_POST, denseBodyRaw_get_kind, denseBodyRaw_get_degrees,
    optIsStr, JVal.isStr, h]

end ServoReciever

/-- A dense command whose fifth degree entry is JSON null (float(None)
raises TypeError): 4 numeric entries, then null, then 11 numeric entries:
16 entries in total, so it passes the length check. -/
def mixedBody : JVal :=
  denseBodyRaw (List.replicate 4 (.jnum 90) ++ .jnull :: List.replicate 11 (.jnum 90))

theorem ServoReciever.do_POST_mixed :
    ServoReciever.do_POST noConv true noFault "/servo" (some mixedBody) =
      ⟨400, denseCalls 1 (List.replicate 4 90)⟩ := by
  have h : mixedBody = denseBodyRaw ((List.replicate 4 (90:ℚ)).map .jnum ++
      .jnull :: List.replicate 11 (.jnum 90)) := by
    simp [mixedBody, List.map_replicate]
  rw [h, ServoReciever.do_POST_body16 noConv true noFault _ (by decide),
    ServoReciever.applyDegrees_interrupted]
  simp

namespace ServoReceiverWs

/-- A frame that is a dict but neither the "servos" type nor a dense
"humanoid16" command is skipped in silence: no hardware call, no reply (the
handler has no send), no exception: the connection just waits for the next
frame and the sender learns nothing. -/
theorem processFrame_skip (c : PyConv) (avail : Bool) (fault : HwCall → Bool)
    (fs : List (String × JVal))
    (ht : optIsStr ((JVal.jobj fs).get "type") "servos" = false)
    (hk : optIsStr ((JVal.jobj fs).get "kind") "humanoid16" = false) :
    processFrame c avail fault (some (.jobj fs)) = ⟨[], [], false⟩ := by
  simp [processFrame, ht, hk]

/-- A dense frame whose degrees list has the wrong length is likewise
skipped in silence (lines 104-105: the length check just continues). -/
theorem processFrame_badlen (c : PyConv) (avail : Bool) (fault : HwCall → Bool)
    (ds : List JVal) (h : ds.length ≠ 16) :
    processFrame c avail fault (some (denseBodyRaw ds)) = ⟨[], [], false⟩ := by
  simp [processFrame, denseBodyRaw, JVal.get, List.find?, optIsStr,
    JVal.isStr, h]

end ServoReceiverWs

/-- C2 (amended): in the HTTP receiver, a request with malformed JSON, a
wrong or missing "kind" discriminator, or a degrees value that is not a
16-element list is rejected with the single 400 invalid-command error and
zero hardware calls; but a non-numeric VALUE inside a 16-element degrees
list is only detected when the per-joint conversion reaches it, so the
joints before it have already been driven: the rejected command is partially
applied. In the ws receiver a dense frame with a wrong kind or wrong length
makes no hardware call but is skipped silently: no invalid-command error is
surfaced to the caller at all. -/
theorem C2_theorem :
    (∀ (c : PyConv) (fault : HwCall → Bool),
      ServoReciever.do_POST c true fault "/servo" none = ⟨400, []⟩) ∧
    (∀ (c : PyConv) (fault : HwCall → Bool) (msg : JVal),
      optIsStr (msg.get "kind") "humanoid16" = false →
      ServoReciever.do_POST c true fault "/servo" (some msg) = ⟨400, []⟩) ∧
    (∀ (c : PyConv) (fault : HwCall → Bool) (ds : List JVal), ds.length ≠ 16 →
      ServoReciever.do_POST c true fault "/servo" (some (denseBodyRaw ds)) =
        ⟨400, []⟩) ∧
    ServoReciever.do_POST noConv true noFault "/servo" (some mixedBody) =
      ⟨400, denseCalls 1 (List.replicate 4 90)⟩ ∧
    (denseCalls 1 (List.replicate 4 90)).length = 4 ∧
    (∀ (c : PyConv) (avail : Bool) (fault : HwCall → Bool)
        (fs : List (String × JVal)),
      optIsStr ((JVal.jobj fs).get "type") "servos" = false →
      optIsStr ((JVal.jobj fs).get "kind") "humanoid16" = false →
      ServoReceiverWs.processFrame c avail fault (some (.jobj fs)) =
        ⟨[], [], false⟩) ∧
    (∀ (c : PyConv) (avail : Bool) (fault : HwCall → Bool) (ds : List JVal),
      ds.length ≠ 16 →
      ServoReceiverWs.processFrame c avail fault (some (denseBodyRaw ds)) =
        ⟨[], [], false⟩) :=
  ⟨fun c fault => ServoReciever.do_POST_malformed c true fault,
   fun c fault msg h => ServoReciever.do_POST_badkind c true fault msg h,
   fun c fault ds h => ServoReciever.do_POST_badlen c true fault ds h,
   ServoReciever.do_POST_mixed,
   by rw [denseCalls_length]; rfl,
   ServoReceiverWs.processFrame_skip,
   ServoReceiverWs.processFrame_badlen⟩

/-- C2 counterexample: two failing dense commands refuting the claim. On the
HTTP receiver, mixedBody fails validation (its fifth degree entry is not
numeric) and is answered with the 400 invalid-command error, yet it produces
four hardware calls: the rejected command was partially applied. On the ws
receiver, a dense frame with only one degree entry fails validation but no
invalid-command error is surfaced: the handler replies nothing, raises
nothing and just skips the frame. -/
theorem C2_counterexample :
    (ServoReciever.do_POST noConv true noFault "/servo" (some mixedBody)).status
        = 400 ∧
    (ServoReciever.do_POST noConv true noFault "/servo" (some mixedBody)).calls
        ≠ [] ∧
    ServoReceiverWs.processFrame noConv true noFault
      (some (denseBodyRaw [.jnum 90])) = ⟨[], [], false⟩ := by
  rw [ServoReciever.do_POST_mixed]
  refine ⟨rfl, ?_, ServoReceiverWs.processFrame_badlen noConv true noFault
    [.jnum 90] (by decide)⟩
  show denseCalls 1 (List.replicate 4 90) ≠ []
  rw [show List.replicate 4 (90:ℚ) = 90 :: List.replicate 3 90 from rfl]
  simp [denseCalls]

/-- C2 witness: the hypothesis-bearing parts of C2_theorem at concrete
inputs. -/
theorem C2_witness :
    ServoReciever.do_POST noConv true noFault "/servo"
        (some (JVal.jobj [("kind", .jstr "wrong")])) = ⟨400, []⟩ ∧
    ServoReciever.do_POST noConv true noFault "/servo"
        (some (denseBodyRaw [.jnum 90])) = ⟨400, []⟩ ∧
    ServoReceiverWs.processFrame noConv true noFault
        (some (JVal.jobj [("kind", .jstr "wrong")])) = ⟨[], [], false⟩ ∧
    ServoReceiverWs.processFrame noConv true noFault
        (some (denseBodyRaw [.jnum 90, .jnum 90])) = ⟨[], [], false⟩ := by
  obtain ⟨_, h2, h3, _, _, h6, h7⟩ := C2_theorem
  exact ⟨h2 noConv noFault _ rfl, h3 noConv noFault _ (by decide),
    h6 noConv true noFault _ rfl rfl,
    h7 noConv true noFault _ (by decide)⟩

/-- C7 (amended): in the HTTP receiver (servo_reciever.py) driver errors are
caught per call, so a well-formed 16-joint batch attempts all 16 driver
calls whatever driver faults occur: the response and attempted call list do
not depend on the fault pattern at all. In the ws receiver
(servo_receiver_ws.py) set_bus_servo has no try/except, so a driver fault
propagates, aborts the rest of the batch, and ends the connection. -/
theorem C7_theorem :
    (∀ (c : PyConv) (fault : HwCall → Bool) (qs : List ℚ), qs.length = 16 →
      ServoReciever.do_POST c true fault "/servo" (some (denseBodyOf qs)) =
        ⟨204, denseCalls 1 qs⟩) ∧
    (∀ (servo_id : ℤ) (qs : List ℚ),
      (denseCalls servo_id qs).length = qs.length) :=
  ⟨ServoReciever.do_POST_dense, denseCalls_length⟩

/-- C7 witness: a batch of 16 entries against a driver that faults on every
call still attempts something and returns 204 (all calls recorded). -/
theorem C7_witness :
    ServoReciever.do_POST noConv true allFault "/servo"
        (some (denseBodyOf (List.replicate 16 90))) =
      ⟨204, denseCalls 1 (List.replicate 16 90)⟩ ∧
    (denseCalls 1 (List.replicate 16 90)).length = 16 := by
  obtain ⟨h1, h2⟩ := C7_theorem
  exact ⟨h1 noConv allFault _ rfl, h2 1 _⟩

/-- Whether a call addresses the serial bus. -/
def HwCall.isBus : HwCall → Bool
  | .bus _ _ _ => true
  | .pwm _ _ _ => false

/-- Whether a call addresses a PWM channel. -/
def HwCall.isPwm : HwCall → Bool
  | .bus _ _ _ => false
  | .pwm _ _ _ => true

/-- The commanded position value of a call (bus pulse or PWM microseconds). -/
def HwCall.valOf : HwCall → ℤ
  | .bus _ p _ => p
  | .pwm _ u _ => u

/-- The commanded motion duration of a call. -/
def HwCall.timeOf : HwCall → ℤ
  | .bus _ _ t => t
  | .pwm _ _ t => t

theorem foldrSingleton_eq_map_append {α β : Type} (f : α → β) (X : List β) :
    ∀ l : List α, l.foldr (fun i acc => [f i] ++ acc) X = l.map f ++ X
  | [] => rfl
  | a :: l => by
    have ih := foldrSingleton_eq_map_append f X l
    simp only [List.singleton_append] at ih ⊢
    simp [ih]

namespace ServoReciever

theorem set_bus_servo_500 (fault : HwCall → Bool) (servo_id : ℤ) :
    (set_bus_servo true fault servo_id 500 1000).1 =
      [HwCall.bus servo_id 500 1000] := by
  simp only [set_bus_servo, if_true]
  norm_num [clampQ, truncQ]

theorem set_pwm_servo_1500 (fault : HwCall → Bool) (channel : ℤ) :
    (set_pwm_servo true fault channel 1500 1000).1 =
      [HwCall.pwm channel 1500 1000] := by
  simp only [set_pwm_servo, if_true]
  norm_num [clampQ, truncQ]

/-- The startup reset issues exactly the 16 bus calls at pulse 500 followed
by the 2 head PWM calls at 1500, all with the 1000 ms transition, for any
driver fault pattern (faults are swallowed call by call). -/
theorem startupCalls_eval (fault : HwCall → Bool) :
    startupCalls true false fault =
      (List.range 16).map (fun i => HwCall.bus ((i : ℤ) + 1) 500 1000) ++
        [HwCall.pwm 1 1500 1000, HwCall.pwm 2 1500 1000] := by
  have hres : reset_to_neutral true fault 1000 =
      (List.range 16).map (fun i => HwCall.bus ((i : ℤ) + 1) 500 1000) ++
        [HwCall.pwm 1 1500 1000, HwCall.pwm 2 1500 1000] := by
    unfold reset_to_neutral
    simp only [set_bus_servo_500, set_pwm_servo_1500]
    rw [foldrSingleton_eq_map_append]
    rfl
  simp [startupCalls, hres]

end ServoReciever

/-- C5: on process start of the HTTP receiver with a hardware backend
present and the reset not skipped, the traffic issued before the HTTP server
starts accepting commands is exactly 16 bus-servo calls at pulse 500 (ids
1..16) followed by 2 PWM calls at 1500 microseconds (channels 1 and 2), all
with the 1000 ms transition duration, independent of driver faults. -/
theorem C5_theorem : ∀ fault : HwCall → Bool,
    ServoReciever.startupCalls true false fault =
      (List.range 16).map (fun i => HwCall.bus ((i : ℤ) + 1) 500 1000) ++
        [HwCall.pwm 1 1500 1000, HwCall.pwm 2 1500 1000] ∧
    ((ServoReciever.startupCalls true false fault).filter HwCall.isBus).length
        = 16 ∧
    ((ServoReciever.startupCalls true false fault).filter HwCall.isPwm).length
        = 2 ∧
    (ServoReciever.startupCalls true false fault).all
      (fun call => call.timeOf == 1000 &&
        (call.isBus && call.valOf == 500 || call.isPwm && call.valOf == 1500))
      = true := by
  intro fault
  have h := ServoReciever.startupCalls_eval fault
  refine ⟨h, ?_, ?_, ?_⟩ <;> rw [h] <;> decide

namespace ServoReceiverWs

theorem degrees_to_pulse_eq :
    degrees_to_pulse = ServoReciever.degrees_to_pulse := rfl

theorem set_bus_servo_eval_ws (fault : HwCall → Bool) (servo_id : ℤ) {p : ℤ}
    (h0 : 0 ≤ p) (h1 : p ≤ 1000) :
    set_bus_servo true fault servo_id (p : ℚ) 80 =
      ([HwCall.bus servo_id p 80], fault (HwCall.bus servo_id p 80)) := by
  simp [set_bus_servo, clampQ_trunc_intCast h0 h1, truncQ_80,
    max_eq_right (by norm_num : (0:ℚ) ≤ 80)]

/-- With no driver fault, a numeric dense batch attempts all its calls and
nothing escapes. -/
theorem applyDegreesWs_num_noFault (c : PyConv) :
    ∀ (servo_id : ℤ) (qs : List ℚ),
      applyDegreesWs c true noFault servo_id (qs.map .jnum) =
        (denseCalls servo_id qs, false) := by
  intro servo_id qs
  induction qs generalizing servo_id with
  | nil => rfl
  | cons q rest ih =>
    simp [applyDegreesWs, pyFloat, degrees_to_pulse_eq, denseCalls, ih, noFault,
      set_bus_servo_eval_ws noFault servo_id (ServoReciever.degrees_to_pulse_nonneg q)
        (ServoReciever.degrees_to_pulse_le q)]

/-- Without a backend, a numeric dense batch attempts nothing. -/
theorem applyDegreesWs_num_noavail (c : PyConv) (fault : HwCall → Bool) :
    ∀ (servo_id : ℤ) (qs : List ℚ),
      applyDegreesWs c false fault servo_id (qs.map .jnum) = ([], false) := by
  intro servo_id qs
  induction qs generalizing servo_id with
  | nil => rfl
  | cons q rest ih => simp [applyDegreesWs, pyFloat, set_bus_servo, ih]

/-- When the driver faults on the very first call of a dense batch, only
that call is attempted and the exception escapes: the remaining 15 joints
are never attempted. -/
theorem applyDegreesWs_allFault_cons (c : PyConv) (servo_id : ℤ) (q : ℚ)
    (rest : List JVal) :
    applyDegreesWs c true allFault servo_id (.jnum q :: rest) =
      ([HwCall.bus servo_id (ServoReciever.degrees_to_pulse q) 80], true) := by
  simp [applyDegreesWs, pyFloat, degrees_to_pulse_eq, allFault,
    set_bus_servo_eval_ws allFault servo_id (ServoReciever.degrees_to_pulse_nonneg q)
      (ServoReciever.degrees_to_pulse_le q)]

/-- processFrame on a headless dense body of the right length reduces to the
outcome of the dense loop. -/
theorem processFrame_body16 (c : PyConv) (avail : Bool) (fault : HwCall → Bool)
    (ds : List JVal) (cs : List HwCall) (b : Bool) (h : ds.length = 16)
    (had : applyDegreesWs c avail fault 1 ds = (cs, b)) :
    processFrame c avail fault (some (denseBodyRaw ds)) = ⟨cs, [], b⟩ := by
  cases b <;>
    simp [processFrame, denseBodyRaw, JVal.get, List.find?, optIsStr,
      JVal.isStr, headFields, applyHeadFieldDeg, h, had]

theorem processFrame_dense90_noFault :
    processFrame noConv true noFault (some dense90Body) =
      ⟨denseCalls 1 (List.replicate 16 90), [], false⟩ := by
  have h : dense90Body =
      denseBodyRaw ((List.replicate 16 (90:ℚ)).map .jnum) := rfl
  rw [h]
  exact processFrame_body16 noConv true noFault _ _ _ (by simp)
    (applyDegreesWs_num_noFault noConv 1 (List.replicate 16 90))

theorem processFrame_dense90_allFault :
    processFrame noConv true allFault (some dense90Body) =
      ⟨[HwCall.bus 1 500 80], [], true⟩ := by
  have h : dense90Body =
      denseBodyRaw ((List.replicate 16 (90:ℚ)).map .jnum) := rfl
  have hrep : (List.replicate 16 (90:ℚ)).map JVal.jnum =
      .jnum 90 :: (List.replicate 15 (90:ℚ)).map JVal.jnum := rfl
  have had := applyDegreesWs_allFault_cons noConv 1 90
    ((List.replicate 15 (90:ℚ)).map JVal.jnum)
  rw [ServoReciever.degrees_to_pulse_90] at had
  rw [h]
  exact processFrame_body16 noConv true allFault _ _ _ (by simp)
    (by rw [hrep]; exact had)

theorem processFrame_dense90_noavail (c : PyConv) (fault : HwCall → Bool) :
    processFrame c false fault (some dense90Body) = ⟨[], [], false⟩ := by
  have h : dense90Body =
      denseBodyRaw ((List.replicate 16 (90:ℚ)).map .jnum) := rfl
  rw [h]
  exact processFrame_body16 c false fault _ _ _ (by simp)
    (applyDegreesWs_num_noavail c fault 1 (List.replicate 16 90))

/-- A ping frame is not the "servos" type and not a "humanoid16" dense
command, so the handler falls through both branches: no hardware call, no
exception, and, because the handler contains no send at all, no reply. -/
theorem processFrame_ping (c : PyConv) (avail : Bool) (fault : HwCall → Bool) :
    processFrame c avail fault (some pingFrame) = ⟨[], [], false⟩ := by
  simp [processFrame, pingFrame, optIsStr, JVal.isStr, JVal.get, List.find?]

theorem runConn_malformed (c : PyConv) (avail : Bool) (fault : HwCall → Bool)
    (rest : List (Option JVal)) :
    runConn c avail fault (none :: rest) = ([], [], rest) := rfl

theorem runConn_ok (c : PyConv) (avail : Bool) (fault : HwCall → Bool)
    (f : Option JVal) (rest : List (Option JVal))
    (h : (processFrame c avail fault f).raised = false) :
    runConn c avail fault (f :: rest) =
      ((processFrame c avail fault f).calls ++ (runConn c avail fault rest).1,
       (processFrame c avail fault f).replies ++
         (runConn c avail fault rest).2.1,
       (runConn c avail fault rest).2.2) := by
  simp [runConn, h]

end ServoReceiverWs

/-- C6: evaluation of the streaming receiver on the ping frame: it performs
no hardware call and raises nothing, but its reply list is empty: the
handler never sends a pong (it contains no send at all), although the spec
and the in-repo client servo_client.py send_ping wait for one. -/
theorem C6_theorem : ∀ (c : PyConv) (avail : Bool) (fault : HwCall → Bool),
    ServoReceiverWs.processFrame c avail fault (some pingFrame) =
      ⟨[], [], false⟩ :=
  ServoReceiverWs.processFrame_ping

/-- C7 counterexample: a valid 16-joint dense frame against a driver whose
first call faults: only 1 of the 16 driver calls is attempted and the
exception escapes the batch (ending the connection), so a failure to move
one joint does prevent attempting the other 15 in the ws receiver. -/
theorem C7_counterexample :
    (ServoReceiverWs.processFrame noConv true allFault
      (some dense90Body)).calls.length = 1 ∧
    (ServoReceiverWs.processFrame noConv true allFault
      (some dense90Body)).raised = true := by
  rw [ServoReceiverWs.processFrame_dense90_allFault]
  exact ⟨rfl, rfl⟩

/-- C8 (amended): a malformed frame on a streaming connection does NOT leave
the connection open: the json.loads exception escapes the per-frame code, is
caught only by the except around the receive loop, and the handler ends, so
the frames after it on the same connection are never processed. A frame
whose processing raises nothing does let the connection continue. -/
theorem C8_theorem :
    (∀ (c : PyConv) (avail : Bool) (fault : HwCall → Bool)
        (rest : List (Option JVal)),
      ServoReceiverWs.runConn c avail fault (none :: rest) = ([], [], rest)) ∧
    (∀ (c : PyConv) (avail : Bool) (fault : HwCall → Bool) (f : Option JVal)
        (rest : List (Option JVal)),
      (ServoReceiverWs.processFrame c avail fault f).raised = false →
      ServoReceiverWs.runConn c avail fault (f :: rest) =
        ((ServoReceiverWs.processFrame c avail fault f).calls ++
            (ServoReceiverWs.runConn c avail fault rest).1,
         (ServoReceiverWs.processFrame c avail fault f).replies ++
            (ServoReceiverWs.runConn c avail fault rest).2.1,
         (ServoReceiverWs.runConn c avail fault rest).2.2)) :=
  ⟨ServoReceiverWs.runConn_malformed, ServoReceiverWs.runConn_ok⟩

/-- C8 witness: the continuation part of C8_theorem at a concrete
non-raising frame. -/
theorem C8_witness :
    ServoReceiverWs.runConn noConv true noFault [some pingFrame] =
      ([], [], []) := by
  rw [C8_theorem.2 noConv true noFault (some pingFrame) []
    (by rw [ServoReceiverWs.processFrame_ping])]
  simp [ServoReceiverWs.processFrame_ping, ServoReceiverWs.runConn]

/-- C8 counterexample: a connection that receives a malformed frame followed
by a perfectly valid dense command processes nothing after the malformed
frame: the valid command (which alone would produce 16 driver calls) is left
unprocessed, contradicting "subsequent frames on the same connection
continue to be processed". -/
theorem C8_counterexample :
    ServoReceiverWs.runConn noConv true noFault [none, some dense90Body] =
      ([], [], [some dense90Body]) ∧
    (ServoReceiverWs.processFrame noConv true noFault
      (some dense90Body)).calls.length = 16 := by
  constructor
  · exact ServoReceiverWs.runConn_malformed noConv true noFault [some dense90Body]
  · rw [ServoReceiverWs.processFrame_dense90_noFault]
    show (denseCalls 1 (List.replicate 16 90)).length = 16
    rw [denseCalls_length]
    rfl

namespace TonyPiServoServer

theorem deg_to_bus_pos_eq :
    deg_to_bus_pos = ServoReciever.degrees_to_pulse := rfl

/-- During real request handling every handler attribute is unset, so the
self.last_at read of the rate check (line 147, outside the try) raises
AttributeError: the request gets no response and no driver call. -/
theorem do_POST_crash (c : PyConv) (fault : HwCall → Bool) (self : Attrs)
    (now : ℚ) (body : Option JVal) (h : self.last_at = none) :
    do_POST c fault self now "/servo" body = ([], none) := by
  simp [do_POST, h]

/-- A POST to any other path is answered 404 before any attribute is read,
so that branch works even while the attributes are unset. -/
theorem do_POST_other_path (c : PyConv) (fault : HwCall → Bool) (self : Attrs)
    (now : ℚ) (path : String) (body : Option JVal) (h : path ≠ "/servo") :
    do_POST c fault self now path body = ([], some (self, 404)) := by
  simp [do_POST, h]

/-- The (dead) rate-limit branch: were last_at and min_interval_s installed,
a too-fast request would be answered 204 with no driver call and unchanged
attributes, identically for every body. -/
theorem do_POST_ratelimited (c : PyConv) (fault : HwCall → Bool)
    (self : Attrs) (now la mi : ℚ) (body : Option JVal)
    (hla : self.last_at = some la) (hmi : self.min_interval_s = some mi)
    (h : now - la < mi) :
    do_POST c fault self now "/servo" body = ([], some (self, 204)) := by
  simp [do_POST, hla, hmi, h]

theorem floatList_num (c : PyConv) : ∀ qs : List ℚ,
    floatList c (qs.map .jnum) = some qs
  | [] => rfl
  | q :: rest => by simp [floatList, pyFloat, floatList_num c rest]

theorem parse_payload_dense (c : PyConv) (qs : List ℚ) (h : qs.length = 16) :
    parse_payload c (some (denseBodyOf qs)) = .ok (qs, none) := by
  simp [parse_payload, denseBodyOf, denseBodyRaw_get_kind,
    denseBodyRaw_get_degrees, denseBodyRaw_get_head, optIsStr, JVal.isStr, h,
    floatList_num]

theorem set_bus_servo_eval80 (mode : Mode) (fault : HwCall → Bool)
    (servo_id : ℤ) {p : ℤ} (h0 : 0 ≤ p) (h1 : p ≤ 1000) :
    set_bus_servo mode fault servo_id (p : ℚ) 80 =
      ([HwCall.bus servo_id p 80], fault (HwCall.bus servo_id p 80)) := by
  cases mode <;>
    simp [set_bus_servo, clampQ_trunc_intCast h0 h1, truncQ_80,
      max_eq_right (by norm_num : (0:ℚ) ≤ 80)]

theorem applyAll_num_noFault (mode : Mode) : ∀ (servo_id : ℤ) (qs : List ℚ),
    applyAll mode noFault 80 servo_id qs = (denseCalls servo_id qs, false) := by
  intro servo_id qs
  induction qs generalizing servo_id with
  | nil => rfl
  | cons q rest ih =>
    simp [applyAll, deg_to_bus_pos_eq, denseCalls, ih, noFault,
      set_bus_servo_eval80 mode noFault servo_id
        (ServoReciever.degrees_to_pulse_nonneg q)
        (ServoReciever.degrees_to_pulse_le q)]

/-- The (dead) success branch at the factory defaults (move_ms 80, max_fps
10 giving interval 1/10): were the attributes installed, an admitted valid
dense command would attempt all 16 calls, advance last_at to now, and be
answered 204. -/
theorem do_POST_dense_installed (mode : Mode) (la now : ℚ) (qs : List ℚ)
    (hlen : qs.length = 16) (h : ¬ (now - la < 1/10)) :
    do_POST noConv noFault ⟨some mode, some 80, some la, some (1/10)⟩ now
        "/servo" (some (denseBodyOf qs)) =
      (denseCalls 1 qs,
        some (⟨some mode, some 80, some now, some (1/10)⟩, 204)) := by
  simp only [do_POST, eq_self_iff_true, if_true, if_neg h,
    parse_payload_dense noConv qs hlen, applyAll_num_noFault, applyHead]
  simp [noFault]

end TonyPiServoServer

/-- C3 (amended): two commands submitted to the tonypi bridge faster than
the configured minimum interval are neither applied nor rate-limited: every
POST /servo dies with AttributeError before the rate check and gets no
response and zero hardware calls, because handler_factory assigns
controller/move_ms/last_at/min_interval_s only after Handler(...) has
returned, while BaseRequestHandler.__init__ handles the request during
construction, so do_POST always reads an unset self.last_at. Paths other
than /servo are answered 404 before any attribute read. Even as written,
the (dead) limiter state is per handler instance, initialized by the
factory to last_at = 0, not a single timestamp shared across connections. -/
theorem C3_theorem :
    (∀ (c : PyConv) (fault : HwCall → Bool) (self : TonyPiServoServer.Attrs)
        (now : ℚ) (body : Option JVal),
      self.last_at = none →
      TonyPiServoServer.do_POST c fault self now "/servo" body = ([], none)) ∧
    TonyPiServoServer.duringInitAttrs =
      (⟨none, none, none, none⟩ : TonyPiServoServer.Attrs) ∧
    (∀ (mode : TonyPiServoServer.Mode) (moveMs maxFps : ℚ),
      (TonyPiServoServer.factoryAttrs mode moveMs maxFps).last_at = some 0) ∧
    (∀ (c : PyConv) (fault : HwCall → Bool) (self : TonyPiServoServer.Attrs)
        (now : ℚ) (path : String) (body : Option JVal), path ≠ "/servo" →
      TonyPiServoServer.do_POST c fault self now path body =
        ([], some (self, 404))) :=
  ⟨TonyPiServoServer.do_POST_crash,
   rfl,
   fun _ _ _ => rfl,
   TonyPiServoServer.do_POST_other_path⟩

/-- C3 counterexample: with the factory defaults (max_fps 10, minimum
interval 1/10 s), two valid dense commands 1/100 s apart on the same
bridge: the claim says the first is applied and the second dropped with no
hardware call; in fact BOTH produce zero hardware calls and no response at
all, because each request is handled while the handler attributes are still
unset and do_POST raises AttributeError at the self.last_at read. -/
theorem C3_counterexample :
    (1000 + 1/100 : ℚ) - 1000 < TonyPiServoServer.min_interval_s 10 ∧
    TonyPiServoServer.do_POST noConv noFault TonyPiServoServer.duringInitAttrs
      1000 "/servo" (some dense90Body) = ([], none) ∧
    TonyPiServoServer.do_POST noConv noFault TonyPiServoServer.duringInitAttrs
      (1000 + 1/100) "/servo" (some dense90Body) = ([], none) := by
  refine ⟨?_, rfl, rfl⟩
  norm_num [TonyPiServoServer.min_interval_s]

/-- C3 witness: the hypothesis-bearing parts of C3_theorem at concrete
inputs. -/
theorem C3_witness :
    TonyPiServoServer.do_POST noConv noFault ⟨none, none, none, none⟩ 1000
      "/servo" (some dense90Body) = ([], none) ∧
    TonyPiServoServer.do_POST noConv noFault ⟨none, none, none, none⟩ 1000
      "/other" none = ([], some (⟨none, none, none, none⟩, 404)) := by
  obtain ⟨hcrash, _, _, h404⟩ := C3_theorem
  exact ⟨hcrash noConv noFault ⟨none, none, none, none⟩ 1000
      (some dense90Body) rfl,
    h404 noConv noFault ⟨none, none, none, none⟩ 1000 "/other" none
      (by decide)⟩

/-- C10: the rate-limit reply the claim describes is intended but dead
code. During real request handling every handler attribute is unset
(handler_factory assigns them only after BaseRequestHandler.__init__ has
already handled the request), so every POST /servo raises AttributeError at
the self.last_at read: no status at all, no hardware call; in particular no
request is ever rejected by the rate limiter and answered 204. Were the
factory attributes installed, the code would do what the claim says: a
too-fast request would get 204 with no hardware call, for every body
(unread), the same status an admitted successful command gets. -/
theorem C10_theorem :
    (∀ (c : PyConv) (fault : HwCall → Bool) (now : ℚ) (body : Option JVal),
      TonyPiServoServer.do_POST c fault TonyPiServoServer.duringInitAttrs now
        "/servo" body = ([], none)) ∧
    (∀ body : Option JVal,
      TonyPiServoServer.do_POST noConv noFault
        (TonyPiServoServer.factoryAttrs .hiwonderBoard 80 10) (1/100)
        "/servo" body =
        ([], some (TonyPiServoServer.factoryAttrs .hiwonderBoard 80 10,
          204))) ∧
    TonyPiServoServer.do_POST noConv noFault
        ⟨some .hiwonderBoard, some 80, some 0, some (1/10)⟩ 1000 "/servo"
        (some dense90Body) =
      (denseCalls 1 (List.replicate 16 90),
        some (⟨some .hiwonderBoard, some 80, some 1000, some (1/10)⟩, 204)) := by
  refine ⟨?_, ?_, ?_⟩
  · intro c fault now body
    exact TonyPiServoServer.do_POST_crash c fault
      TonyPiServoServer.duringInitAttrs now body rfl
  · intro body
    exact TonyPiServoServer.do_POST_ratelimited noConv noFault
      (TonyPiServoServer.factoryAttrs .hiwonderBoard 80 10) (1/100) 0
      (TonyPiServoServer.min_interval_s 10) body rfl rfl
      (by norm_num [TonyPiServoServer.min_interval_s])
  · rw [show dense90Body = denseBodyOf (List.replicate 16 90) from rfl]
    exact TonyPiServoServer.do_POST_dense_installed .hiwonderBoard 0 1000
      (List.replicate 16 90) (by simp) (by norm_num)

namespace ServoReciever

theorem do_POST_dense_noavail (c : PyConv) (fault : HwCall → Bool) :
    do_POST c false fault "/servo" (some dense90Body) = ⟨204, []⟩ := by
  rw [show dense90Body = denseBodyRaw ((List.replicate 16 (90:ℚ)).map .jnum)
      from rfl,
    do_POST_body16 c false fault _ (by simp), applyDegrees_num_noavail]
  simp

end ServoReciever

/-- C4 (amended): when no servo SDK can be imported at process start, the
HTTP receiver and the ws receiver degrade to a no-op test mode: every
set-servo operation returns without any driver call and the bridges keep
serving (a valid command still gets 204 / a clean frame result). The tonypi
bridge does NOT: TonyPiController.__init__ raises RuntimeError when both
probes fail, and main calls it unguarded, so that variant refuses to start
instead of degrading. -/
theorem C4_theorem :
    (∀ (fault : HwCall → Bool) (servo_id : ℤ) (pulse timeMs : ℚ),
      ServoReciever.set_bus_servo false fault servo_id pulse timeMs
        = ([], false)) ∧
    (∀ (fault : HwCall → Bool) (channel : ℤ) (pulse_us timeMs : ℚ),
      ServoReciever.set_pwm_servo false fault channel pulse_us timeMs
        = ([], false)) ∧
    (∀ (c : PyConv) (fault : HwCall → Bool),
      ServoReciever.do_POST c false fault "/servo" (some dense90Body)
        = ⟨204, []⟩) ∧
    (∀ (c : PyConv) (fault : HwCall → Bool),
      ServoReceiverWs.processFrame c false fault (some dense90Body)
        = ⟨[], [], false⟩) ∧
    TonyPiServoServer.initController false false
      = .error TonyPiServoServer.sdkErrorMsg :=
  ⟨fun _ _ _ _ => rfl,
   fun _ _ _ _ => rfl,
   ServoReciever.do_POST_dense_noavail,
   ServoReceiverWs.processFrame_dense90_noavail,
   rfl⟩

/-- C4 counterexample: the claim says every bridge variant degrades to a
simulated no-op mode when no driver initializes; but with both SDK probes
failing, the controller constructor of tonypi_servo_server.py returns the raised
RuntimeError, which main does not catch: the process crashes at startup
instead of entering a simulated mode. -/
theorem C4_counterexample :
    TonyPiServoServer.initController false false
      = .error TonyPiServoServer.sdkErrorMsg := rfl
